import Mathlib

/-!
Formal model of the document-verification core of AIDocuVerification
(backend/app/services: pipeline.py, validator.py, fraud.py, and the
shared enums of backend/app/schemas/document.py).

The Python code is dynamically typed and may raise exceptions, so the
embedding works over a universe `PyVal` of Python values; operations that
can raise return `Except PyErr`.  Numbers are modelled by exact rationals
(Python uses IEEE doubles; every numeric literal appearing in the code,
such as 0.5, 0.3, 0.6, 0.8, 0.85 and 1.0, is treated as the exact rational
it denotes).  String operations are modelled over the character list of
the string; character classes of the regexes used by the code
(whitespace, digits, A-Z) are modelled over their ASCII ranges.
-/

/-- Kinds of Python exceptions the modelled code can raise. -/
inductive PyErr where
  | typeError
  | valueError
  | attributeError
deriving DecidableEq, Repr

/-- Universe of Python values flowing through the pipeline. -/
inductive PyVal where
  | none : PyVal
  | bool : Bool → PyVal
  | int : Int → PyVal
  | float : ℚ → PyVal
  | str : String → PyVal
  | list : List PyVal → PyVal
  | dict : List (String × PyVal) → PyVal

/-- An extraction result, the `Dict[str, Any]` returned by the extractor:
an insertion-ordered association list. -/
def ER : Type := List (String × PyVal)

/-- Python `d.get(k, default)` for a dictionary given as items. -/
def dget (d : List (String × PyVal)) (k : String) (dflt : PyVal) : PyVal :=
  match d.find? (fun p => p.1 == k) with
  | some p => p.2
  | Option.none => dflt

/-- Accessing `.get` / `.items()` on a value: succeeds only on a dict
(`AttributeError` otherwise, as in Python). -/
def pyAsDict : PyVal → Except PyErr (List (String × PyVal))
  | PyVal.dict d => Except.ok d
  | _ => Except.error PyErr.attributeError

/-- A string operation (`.lower()`, `.strip()`, `re` functions, `strptime`)
applied to a value: succeeds only on a str. -/
def pyAsStr : PyVal → Except PyErr String
  | PyVal.str s => Except.ok s
  | _ => Except.error PyErr.typeError

/-- Python truthiness (`if v:`). -/
def pyTruthy : PyVal → Bool
  | PyVal.none => false
  | PyVal.bool b => b
  | PyVal.int n => n != 0
  | PyVal.float q => q != 0
  | PyVal.str s => !s.isEmpty
  | PyVal.list l => !l.isEmpty
  | PyVal.dict d => !d.isEmpty

/-- Whether a value is numeric (int, float or bool), i.e. supports
comparison against a number without a `TypeError`. -/
def pyIsNum : PyVal → Bool
  | PyVal.bool _ => true
  | PyVal.int _ => true
  | PyVal.float _ => true
  | _ => false

/-- Numeric value of a Python value (0 for non-numbers; only meaningful
when `pyIsNum` holds). -/
def pyNumVal : PyVal → ℚ
  | PyVal.bool b => if b then mkRat 1 1 else mkRat 0 1
  | PyVal.int n => mkRat n 1
  | PyVal.float q => q
  | _ => mkRat 0 1

/-- Comparing a value against a number (as in `confidence < 0.3`):
`TypeError` unless the value is numeric. -/
def pyAsNum : PyVal → Except PyErr ℚ
  | PyVal.bool b => Except.ok (if b then mkRat 1 1 else mkRat 0 1)
  | PyVal.int n => Except.ok (mkRat n 1)
  | PyVal.float q => Except.ok q
  | _ => Except.error PyErr.typeError

/-- Digits of a character list read as a natural number. -/
def digitsVal (cs : List Char) : ℕ :=
  cs.foldl (fun a c => a * 10 + (c.toNat - 48)) 0

/-- Parse a decimal numeral string body (after sign removal):
`digits [. digits]` with at least one digit, as accepted by `float(...)`
(exponents and infinities are not exercised by this code base). -/
def parseDecimal (cs : List Char) : Option ℚ :=
  let ip := cs.takeWhile Char.isDigit
  let rest := cs.dropWhile Char.isDigit
  match rest with
  | [] => if ip.isEmpty then Option.none else some (mkRat (Int.ofNat (digitsVal ip)) 1)
  | '.' :: fp =>
      if fp.all Char.isDigit ∧ ¬(ip.isEmpty ∧ fp.isEmpty) then
        some (mkRat (Int.ofNat (digitsVal ip * 10 ^ fp.length + digitsVal fp)) (10 ^ fp.length))
      else Option.none
  | _ => Option.none

/-- List-of-characters trim of surrounding whitespace. -/
def trimChars (cs : List Char) : List Char :=
  ((cs.dropWhile Char.isWhitespace).reverse.dropWhile Char.isWhitespace).reverse

/-- Model of Python `str.strip()`. -/
def pyStrip (s : String) : String := String.mk (trimChars s.data)

/-- Model of Python `str.lower()`. -/
def lowerStr (s : String) : String := String.mk (s.data.map Char.toLower)

/-- Model of Python `str.upper()`. -/
def upperStr (s : String) : String := String.mk (s.data.map Char.toUpper)

/-- Model of `re.sub(whitespace-run, empty, s)`: drop all whitespace. -/
def removeWs (s : String) : String :=
  String.mk (s.data.filter (fun c => !c.isWhitespace))

/-- Python `float(v)`: numbers pass through, strings are parsed as decimal
numerals (`ValueError` on failure), anything else is a `TypeError`. -/
def pyFloat : PyVal → Except PyErr ℚ
  | PyVal.bool b => Except.ok (if b then mkRat 1 1 else mkRat 0 1)
  | PyVal.int n => Except.ok (mkRat n 1)
  | PyVal.float q => Except.ok q
  | PyVal.str s =>
      match
        (match (pyStrip s).data with
         | '+' :: t => parseDecimal t
         | '-' :: t => (parseDecimal t).map Neg.neg
         | t => parseDecimal t) with
      | some q => Except.ok q
      | Option.none => Except.error PyErr.valueError
  | _ => Except.error PyErr.typeError

/-- Python `str(v)` / f-string interpolation of a value.  Total; the repr
of composite values is abbreviated, no modelled property depends on it. -/
def pyStrOf : PyVal → String
  | PyVal.none => "None"
  | PyVal.bool b => if b then "True" else "False"
  | PyVal.int n => toString n
  | PyVal.float q => toString q.num ++ "/" ++ toString q.den
  | PyVal.str s => s
  | PyVal.list _ => "[...]"
  | PyVal.dict _ => "..."

/-- Fixed-point rendering with two decimals, modelling the `:.2f` format
specifier applied to the (exact-rational model of the) number. -/
def fmt2 (q : ℚ) : String :=
  let n : ℤ := Int.fdiv (200 * q.num + Int.ofNat q.den) (2 * Int.ofNat q.den)
  let sgn := if n < 0 then "-" else ""
  let m := n.natAbs
  sgn ++ toString (m / 100) ++ "." ++ (if m % 100 < 10 then "0" else "") ++ toString (m % 100)

/-- Substring containment over character lists (Python `pat in s`). -/
def containsSub : List Char → List Char → Bool
  | hay, pat =>
    match hay with
    | [] => pat.isEmpty
    | _ :: t => pat.isPrefixOf hay || containsSub t pat

/-- Python `pat in s` on strings. -/
def strContains (s pat : String) : Bool := containsSub s.data pat.data

/-- Python iteration `for x in v`: lists yield their elements, strings
their characters (as 1-character strings), dicts their keys; other values
are not iterable (`TypeError`). -/
def pyIter : PyVal → Except PyErr (List PyVal)
  | PyVal.list l => Except.ok l
  | PyVal.str s => Except.ok (s.data.map (fun c => PyVal.str (String.mk [c])))
  | PyVal.dict d => Except.ok (d.map (fun p => PyVal.str p.1))
  | _ => Except.error PyErr.typeError

/-!
## Dates

`validator.validate_dob` parses dates with `datetime.strptime` over the
format list `["%d-%m-%Y", "%d/%m/%Y", "%Y-%m-%d", "%d %b %Y", "%d %B %Y"]`
and compares the parsed datetime against `datetime.now()`.  A datetime is
modelled by its components; comparison is lexicographic, exactly as in
Python.  `strptime` fills unspecified time components with zero.
-/

/-- A Python `datetime` value (components; comparison is lexicographic). -/
structure DateTime where
  year : ℕ
  month : ℕ
  day : ℕ
  hour : ℕ
  minute : ℕ
  second : ℕ
deriving DecidableEq, Repr

/-- Lexicographic strict comparison of datetimes (Python `<`). -/
def dtLtB (a b : DateTime) : Bool :=
  if a.year ≠ b.year then a.year < b.year
  else if a.month ≠ b.month then a.month < b.month
  else if a.day ≠ b.day then a.day < b.day
  else if a.hour ≠ b.hour then a.hour < b.hour
  else if a.minute ≠ b.minute then a.minute < b.minute
  else a.second < b.second

/-- Leap-year rule used by `datetime` for day-of-month validation. -/
def isLeapYear (y : ℕ) : Bool :=
  y % 4 = 0 && (y % 100 ≠ 0 || y % 400 = 0)

/-- Days in a month, as validated by the `datetime` constructor. -/
def daysInMonth (y m : ℕ) : ℕ :=
  if m = 2 then (if isLeapYear y then 29 else 28)
  else if m = 4 ∨ m = 6 ∨ m = 9 ∨ m = 11 then 30
  else 31

/-- Construct a valid calendar date at midnight, or fail as the `datetime`
constructor does (`strptime` years are four-digit, and year 0 is refused). -/
def mkValidDate (y m d : ℕ) : Option DateTime :=
  if 1 ≤ y ∧ 1 ≤ m ∧ m ≤ 12 ∧ 1 ≤ d ∧ d ≤ daysInMonth y m then
    some ⟨y, m, d, 0, 0, 0⟩
  else Option.none

/-- Split a character list at every separator character (no collapsing),
modelling a literal separator in an `strptime` format. -/
def splitOnPred (p : Char → Bool) : List Char → List (List Char)
  | [] => [[]]
  | c :: t =>
    if p c then [] :: splitOnPred p t
    else
      match splitOnPred p t with
      | [] => [[c]]
      | h :: r => (c :: h) :: r

/-- A day or month token: one or two digits (as matched by `%d` / `%m`). -/
def numTok2 (cs : List Char) : Option ℕ :=
  if (cs.length = 1 ∨ cs.length = 2) ∧ cs.all Char.isDigit then some (digitsVal cs)
  else Option.none

/-- A year token: exactly four digits (as matched by `%Y`). -/
def numTok4 (cs : List Char) : Option ℕ :=
  if cs.length = 4 ∧ cs.all Char.isDigit then some (digitsVal cs)
  else Option.none

/-- `strptime` with format `%d<sep>%m<sep>%Y`. -/
def parseDMY (sep : Char) (s : String) : Option DateTime :=
  match splitOnPred (fun c => c = sep) s.data with
  | [dTok, mTok, yTok] =>
    match numTok2 dTok, numTok2 mTok, numTok4 yTok with
    | some d, some m, some y => mkValidDate y m d
    | _, _, _ => Option.none
  | _ => Option.none

/-- `strptime` with format `%Y-%m-%d`. -/
def parseYMD (s : String) : Option DateTime :=
  match splitOnPred (fun c => c = '-') s.data with
  | [yTok, mTok, dTok] =>
    match numTok4 yTok, numTok2 mTok, numTok2 dTok with
    | some y, some m, some d => mkValidDate y m d
    | _, _, _ => Option.none
  | _ => Option.none

/-- Month-name tables of the C locale used by `%b` and `%B`
(matched case-insensitively). -/
def monthAbbrevs : List String :=
  ["jan", "feb", "mar", "apr", "may", "jun", "jul", "aug", "sep", "oct", "nov", "dec"]

/-- Full month names for `%B`. -/
def monthNames : List String :=
  ["january", "february", "march", "april", "may", "june",
   "july", "august", "september", "october", "november", "december"]

/-- `strptime` with format `%d %b %Y` / `%d %B %Y`: whitespace in the
format matches a run of whitespace; the data must not carry leading or
trailing whitespace (nothing in the format matches it). -/
def parseDMonY (names : List String) (s : String) : Option DateTime :=
  if s.data.head?.any Char.isWhitespace ∨ s.data.getLast?.any Char.isWhitespace then
    Option.none
  else
    match (splitOnPred Char.isWhitespace s.data).filter (fun t => !t.isEmpty) with
    | [dTok, monTok, yTok] =>
      match numTok2 dTok, names.findIdx? (fun nm => nm == lowerStr (String.mk monTok)),
            numTok4 yTok with
      | some d, some i, some y => mkValidDate y (i + 1) d
      | _, _, _ => Option.none
    | _ => Option.none

/-- The parse loop of `validate_dob`: try the five formats in their listed
order, first success wins. -/
def parseDate (s : String) : Option DateTime :=
  (parseDMY '-' s).orElse fun _ =>
  (parseDMY '/' s).orElse fun _ =>
  (parseYMD s).orElse fun _ =>
  (parseDMonY monthAbbrevs s).orElse fun _ =>
  parseDMonY monthNames s

/-!
## Shared schema types (backend/app/schemas/document.py)
-/

/-- `DocumentType`: the closed set of supported document types. -/
inductive DocumentType where
  | aadhaar
  | pan
  | voter_id
  | driving_license
  | passport
  | birth_certificate
  | unknown
deriving DecidableEq, Repr

/-- `DocumentType(s)`: the enum constructor as a partial parse from the
value string (a `ValueError` in Python corresponds to `none`). -/
def parseDocumentType : String → Option DocumentType
  | "aadhaar" => some DocumentType.aadhaar
  | "pan" => some DocumentType.pan
  | "voter_id" => some DocumentType.voter_id
  | "driving_license" => some DocumentType.driving_license
  | "passport" => some DocumentType.passport
  | "birth_certificate" => some DocumentType.birth_certificate
  | "unknown" => some DocumentType.unknown
  | _ => Option.none

/-- `Recommendation`: AI recommendation types. -/
inductive Recommendation where
  | APPROVE
  | REVIEW
  | REJECT
deriving DecidableEq, Repr

/-- `FraudSignal`: a typed, severity-tagged fraud observation. -/
structure FraudSignal where
  type : String
  description : String
  severity : String
deriving DecidableEq, Repr

/-- `ExtractedField`: one normalized field with confidence. -/
structure ExtractedField where
  value : String
  confidence : ℚ
deriving DecidableEq, Repr

/-!
## Validation engine (backend/app/services/validator.py)

Every rule reads `fields.get(key, \x7b\x7d).get("value", "")`; `fields` is
the *raw* fields value handed over by the pipeline, so both `.get` calls
can raise when the receiver is not a dict.
-/

/-- `fields.get(key, \x7b\x7d).get("value", "")` on a raw fields value. -/
def getFieldValue (raw : PyVal) (k : String) : Except PyErr PyVal :=
  match pyAsDict raw with
  | Except.error e => Except.error e
  | Except.ok d =>
    match pyAsDict (dget d k (PyVal.dict [])) with
    | Except.error e => Except.error e
    | Except.ok ed => Except.ok (dget ed "value" (PyVal.str ""))

/-- Character class of `re.search` in `validate_name`:
digits or any of `@#$%^&*()_+=[]\x7b\x7d|\\<>`. -/
def suspiciousChar (c : Char) : Bool :=
  c.isDigit || "@#$%^&*()_+=[]|\\<>".contains c || c.toNat = 123 || c.toNat = 125

/-- `validate_name`: missing/short name, then suspicious characters.  Both
checks run; a truthy non-string name raises at `name.strip()`, and
`re.search` raises on any non-string name. -/
def validateName (raw : PyVal) : Except PyErr (List String) :=
  match getFieldValue raw "name" with
  | Except.error e => Except.error e
  | Except.ok nameV =>
    match
      (if pyTruthy nameV = false then Except.ok true
       else match pyAsStr nameV with
            | Except.error e => Except.error e
            | Except.ok s => Except.ok (decide ((pyStrip s).length < 2))) with
    | Except.error e => Except.error e
    | Except.ok shortErr =>
      match pyAsStr nameV with
      | Except.error e => Except.error e
      | Except.ok s =>
        Except.ok ((if shortErr then ["Name field is missing or too short"] else []) ++
          (if s.data.any suspiciousChar then ["Name contains suspicious characters"] else []))

/-- `validate_dob`: empty value is accepted; otherwise one parse attempt
over the ordered format list, then the future/too-old checks in order. -/
def validateDob (now : DateTime) (raw : PyVal) : Except PyErr (List String) :=
  match getFieldValue raw "dob" with
  | Except.error e => Except.error e
  | Except.ok dobV =>
    if pyTruthy dobV = false then Except.ok []
    else
      match pyAsStr dobV with
      | Except.error e => Except.error e
      | Except.ok s =>
        match parseDate s with
        | Option.none => Except.ok ["Could not parse date of birth: " ++ s]
        | some d =>
          if dtLtB now d then Except.ok ["Date of birth cannot be in the future"]
          else if d.year < 1900 then Except.ok ["Date of birth year seems too old"]
          else Except.ok []

/-- `validate_aadhaar`: strip all whitespace from `id_number`, then the
`^\d\x7b12\x7d$` check. -/
def validateAadhaar (raw : PyVal) : Except PyErr (List String) :=
  match getFieldValue raw "id_number" with
  | Except.error e => Except.error e
  | Except.ok v =>
    match pyAsStr v with
    | Except.error e => Except.error e
    | Except.ok s =>
      let clean := removeWs s
      Except.ok
        (if clean.length = 12 ∧ clean.data.all Char.isDigit then []
         else ["Aadhaar number must be exactly 12 digits"])

/-- ASCII upper-case letter (the `[A-Z]` class). -/
def isUpperAlpha (c : Char) : Bool := 'A' ≤ c && c ≤ 'Z'

/-- `validate_pan`: uppercase + strip, then the `^[A-Z]\x7b5\x7d[0-9]\x7b4\x7d[A-Z]$` check. -/
def validatePan (raw : PyVal) : Except PyErr (List String) :=
  match getFieldValue raw "id_number" with
  | Except.error e => Except.error e
  | Except.ok v =>
    match pyAsStr v with
    | Except.error e => Except.error e
    | Except.ok s =>
      let cs := (pyStrip (upperStr s)).data
      Except.ok
        (if cs.length = 10 ∧ (cs.take 5).all isUpperAlpha ∧
            ((cs.drop 5).take 4).all Char.isDigit ∧ (cs.drop 9).all isUpperAlpha then []
         else ["PAN number must be in format ABCDE1234F"])

/-- `validate_voter_id`: uppercase + strip, then the `^[A-Z]\x7b3\x7d\d\x7b7\x7d$` check. -/
def validateVoterId (raw : PyVal) : Except PyErr (List String) :=
  match getFieldValue raw "id_number" with
  | Except.error e => Except.error e
  | Except.ok v =>
    match pyAsStr v with
    | Except.error e => Except.error e
    | Except.ok s =>
      let cs := (pyStrip (upperStr s)).data
      Except.ok
        (if cs.length = 10 ∧ (cs.take 3).all isUpperAlpha ∧
            (cs.drop 3).all Char.isDigit then []
         else ["Voter ID format appears invalid"])

/-- `validate_fields`: common name/DOB checks, then the document-specific
rule, errors concatenated in that order.  `now` is the value the wall
clock `datetime.now()` returns during the call. -/
def validateFields (now : DateTime) (dt : DocumentType) (raw : PyVal) :
    Except PyErr (List String) :=
  match validateName raw with
  | Except.error e => Except.error e
  | Except.ok e1 =>
    match validateDob now raw with
    | Except.error e => Except.error e
    | Except.ok e2 =>
      match
        (match dt with
         | DocumentType.aadhaar => validateAadhaar raw
         | DocumentType.pan => validatePan raw
         | DocumentType.voter_id => validateVoterId raw
         | _ => Except.ok []) with
      | Except.error e => Except.error e
      | Except.ok e3 => Except.ok (e1 ++ e2 ++ e3)

/-!
## Fraud signal aggregation (backend/app/services/fraud.py)
-/

/-- The read `extraction_result.get("confidence", 0)` in
`check_low_confidence` (note the default 0). -/
def fraudOverallConfidence (e : ER) : PyVal :=
  dget e "confidence" (PyVal.int 0)

/-- The `LOW_CONFIDENCE` signal as built by `check_low_confidence`. -/
def lowConfSig (q : ℚ) : FraudSignal :=
  ⟨"LOW_CONFIDENCE",
   "Overall extraction confidence is very low (" ++ fmt2 q ++ ")", "MEDIUM"⟩

/-- The `LOW_FIELD_CONFIDENCE` signal as built by `check_low_confidence`. -/
def lowFieldSig (k : String) (q : ℚ) : FraudSignal :=
  ⟨"LOW_FIELD_CONFIDENCE",
   "Field \x27" ++ k ++ "\x27 has very low confidence (" ++ fmt2 q ++ ")", "LOW"⟩

/-- The per-field loop of `check_low_confidence`: dict-shaped entries are
read (`confidence` defaulting to 0) and flagged below 0.3; non-dict
entries are skipped. -/
def fieldConfSignals : List (String × PyVal) → Except PyErr (List FraudSignal)
  | [] => Except.ok []
  | (k, v) :: rest =>
    match v with
    | PyVal.dict d =>
      (match pyAsNum (dget d "confidence" (PyVal.int 0)) with
       | Except.error e => Except.error e
       | Except.ok q =>
         match fieldConfSignals rest with
         | Except.error e => Except.error e
         | Except.ok sigs =>
           Except.ok ((if q < mkRat 3 10 then [lowFieldSig k q] else []) ++ sigs))
    | _ => fieldConfSignals rest

/-- `check_low_confidence`: overall confidence below 0.5, then the
per-field confidence loop. -/
def checkLowConfidence (e : ER) : Except PyErr (List FraudSignal) :=
  match pyAsNum (fraudOverallConfidence e) with
  | Except.error er => Except.error er
  | Except.ok q =>
    let s1 := if q < mkRat 1 2 then [lowConfSig q] else []
    match pyAsDict (dget e "fields" (PyVal.dict [])) with
    | Except.error er => Except.error er
    | Except.ok fs =>
      match fieldConfSignals fs with
      | Except.error er => Except.error er
      | Except.ok s2 => Except.ok (s1 ++ s2)

/-- Devanagari code-point test of `check_field_consistency`. -/
def isDevanagari (c : Char) : Bool := 0x900 ≤ c.toNat && c.toNat ≤ 0x97F

/-- Latin-letter test of `check_field_consistency`
(`a <= c.lower() <= z`). -/
def isLatinLetter (c : Char) : Bool := 'a' ≤ c.toLower && c.toLower ≤ 'z'

/-- `check_field_consistency`: flag a long name mixing Devanagari and
Latin scripts.  The name value is scanned as a string (the contract type
of the field). -/
def checkFieldConsistency (e : ER) : Except PyErr (List FraudSignal) :=
  match getFieldValue (dget e "fields" (PyVal.dict [])) "name" with
  | Except.error er => Except.error er
  | Except.ok nameV =>
    match pyAsStr nameV with
    | Except.error er => Except.error er
    | Except.ok s =>
      Except.ok
        (if s.data.any isDevanagari && s.data.any isLatinLetter &&
            decide (20 < s.length) then
          [⟨"MIXED_SCRIPTS",
            "Name field contains mixed scripts - verify authenticity", "LOW"⟩]
         else [])

/-- Severity of a VLM-reported issue: tamper/edit before blur/quality. -/
def issueSeverity (issue : String) : String :=
  let low := lowerStr issue
  if strContains low "tamper" || strContains low "edit" then "HIGH"
  else if strContains low "blur" || strContains low "quality" then "LOW"
  else "MEDIUM"

/-- `check_issues_from_vlm`: one signal per string entry of `issues`
(non-string entries are skipped). -/
def checkIssuesFromVlm (e : ER) : Except PyErr (List FraudSignal) :=
  match pyIter (dget e "issues" (PyVal.list [])) with
  | Except.error er => Except.error er
  | Except.ok items =>
    Except.ok (items.filterMap (fun it =>
      match it with
      | PyVal.str s => some ⟨"VLM_DETECTED_ISSUE", s, issueSeverity s⟩
      | _ => Option.none))

/-- `check_llm_fraud_analysis`: validity score, genuine-appearance flag,
suspicious elements and alterations, in that order; a falsy
`fraud_analysis` short-circuits to no signals. -/
def checkLlmFraudAnalysis (e : ER) : Except PyErr (List FraudSignal) :=
  let fd := dget e "fraud_analysis" (PyVal.dict [])
  if pyTruthy fd = false then Except.ok []
  else
    match pyAsDict fd with
    | Except.error er => Except.error er
    | Except.ok d =>
      match pyFloat (dget d "validity_score" (PyVal.float (mkRat 1 1))) with
      | Except.error er => Except.error er
      | Except.ok vs =>
        let s1 :=
          if vs < mkRat 3 5 then
            [(⟨"LOW_VALIDITY_SCORE",
               "AI Validity Check Failed (" ++ fmt2 vs ++ "): " ++
                 pyStrOf (dget d "reasoning" (PyVal.str "Low validity score detected")),
               if vs < mkRat 2 5 then "HIGH" else "MEDIUM"⟩ : FraudSignal)]
          else []
        let s2 :=
          if pyTruthy (dget d "is_genuine_appearance" (PyVal.bool true)) = false then
            [(⟨"VISUAL_ANOMALY",
               "Document does not appear genuine (visual check failed)", "HIGH"⟩ : FraudSignal)]
          else []
        match pyIter (dget d "suspicious_elements" (PyVal.list [])) with
        | Except.error er => Except.error er
        | Except.ok sus =>
          let s3 := sus.map (fun el =>
            (⟨"SUSPICIOUS_ELEMENT", "Suspicious: " ++ pyStrOf el, "MEDIUM"⟩ : FraudSignal))
          match pyIter (dget d "alterations_detected" (PyVal.list [])) with
          | Except.error er => Except.error er
          | Except.ok alt =>
            let s4 := alt.map (fun el =>
              (⟨"ALTERATION_DETECTED", "Tampering detected: " ++ pyStrOf el, "HIGH"⟩ : FraudSignal))
            Except.ok (s1 ++ s2 ++ s3 ++ s4)

/-- `detect_fraud_signals`: the four checks, outputs concatenated in the
fixed execution order. -/
def detectFraudSignals (e : ER) : Except PyErr (List FraudSignal) :=
  match checkLowConfidence e with
  | Except.error er => Except.error er
  | Except.ok a =>
    match checkFieldConsistency e with
    | Except.error er => Except.error er
    | Except.ok b =>
      match checkIssuesFromVlm e with
      | Except.error er => Except.error er
      | Except.ok c =>
        match checkLlmFraudAnalysis e with
        | Except.error er => Except.error er
        | Except.ok d => Except.ok (a ++ b ++ c ++ d)

/-!
## Pipeline orchestrator (backend/app/services/pipeline.py)
-/

/-- `determine_recommendation`: single-pass precedence evaluation.  The
confidence argument is the raw value the pipeline hands over, so the
comparison against 0.6 can raise on a non-numeric value (readability and
the earlier checks are evaluated before it, as in the code). -/
def determineRecommendationPy (validationErrors : List String)
    (fraudSignals : List FraudSignal) (overallConfidence : PyVal)
    (isReadable : PyVal) : Except PyErr (Recommendation × String) :=
  if pyTruthy isReadable = false then
    Except.ok (Recommendation.REVIEW, "Document is not readable or too low quality")
  else
    match fraudSignals.filter (fun s => s.severity == "HIGH") with
    | h :: _ =>
      Except.ok (Recommendation.REVIEW, "Potential fraud detected: " ++ h.description)
    | [] =>
      if 3 ≤ validationErrors.length then
        Except.ok (Recommendation.REVIEW,
          "Multiple validation issues found (" ++ toString validationErrors.length ++ " errors)")
      else
        match pyAsNum overallConfidence with
        | Except.error e => Except.error e
        | Except.ok q =>
          if q < mkRat 3 5 then
            Except.ok (Recommendation.REVIEW,
              "Low extraction confidence (" ++ fmt2 q ++ ")")
          else if !validationErrors.isEmpty || !fraudSignals.isEmpty then
            (if mkRat 4 5 ≤ q then
              Except.ok (Recommendation.APPROVE, "Minor issues detected but confidence is high")
             else
              Except.ok (Recommendation.REVIEW, "Some issues require manual verification"))
          else if mkRat 17 20 ≤ q then
            Except.ok (Recommendation.APPROVE, "All checks passed with high confidence")
          else
            Except.ok (Recommendation.APPROVE, "Verification complete with acceptable confidence")

/-- The document-type parse of the no-hint branch:
`extraction_result.get("document_type", "unknown").lower()` fed to the
`DocumentType` constructor, with the `ValueError` handler mapping to
`unknown`.  `.lower()` on a non-string raises (uncaught in the code). -/
def resolveFromExtraction (e : ER) : Except PyErr DocumentType :=
  match pyAsStr (dget e "document_type" (PyVal.str "unknown")) with
  | Except.error er => Except.error er
  | Except.ok s =>
    match parseDocumentType (lowerStr s) with
    | some dt => Except.ok dt
    | Option.none => Except.ok DocumentType.unknown

/-- Document-type resolution (pipeline.py lines 83-90): a truthy hint is
lowercased and fed to the `DocumentType` constructor *outside* any
try/except, so an unresolvable hint raises `ValueError`; only the no-hint
branch carries the `unknown` fallback. -/
def resolveDocType (hint : Option String) (e : ER) : Except PyErr DocumentType :=
  match hint with
  | some h =>
    if h ≠ "" then
      match parseDocumentType (lowerStr h) with
      | some dt => Except.ok dt
      | Option.none => Except.error PyErr.valueError
    else resolveFromExtraction e
  | Option.none => resolveFromExtraction e

/-- The read `extraction_result.get("confidence", 0.5)` at pipeline.py
line 92 (note the default 0.5). -/
def pipelineOverallConfidence (e : ER) : PyVal :=
  dget e "confidence" (PyVal.float (mkRat 1 2))

/-- Normalization of one raw field entry (pipeline.py lines 98-105):
dict-shaped entries are coerced with `str(...)` / `float(...)` (defaults
empty string and 0.5), bare scalars are wrapped with confidence 0.5.  The
`float` coercion can raise. -/
def normalizeEntry (v : PyVal) : Except PyErr ExtractedField :=
  match v with
  | PyVal.dict d =>
    (match pyFloat (dget d "confidence" (PyVal.float (mkRat 1 2))) with
     | Except.error e => Except.error e
     | Except.ok c => Except.ok ⟨pyStrOf (dget d "value" (PyVal.str "")), c⟩)
  | _ => Except.ok ⟨pyStrOf v, mkRat 1 2⟩

/-- Decidable equality of `Except` values, for evaluating concrete runs. -/
instance {ε α : Type} [DecidableEq ε] [DecidableEq α] : DecidableEq (Except ε α)
  | Except.ok a, Except.ok b =>
    if h : a = b then isTrue (by rw [h]) else isFalse (by intro hc; cases hc; exact h rfl)
  | Except.error a, Except.error b =>
    if h : a = b then isTrue (by rw [h]) else isFalse (by intro hc; cases hc; exact h rfl)
  | Except.ok _, Except.error _ => isFalse (by intro hc; cases hc)
  | Except.error _, Except.ok _ => isFalse (by intro hc; cases hc)

/-- The signal the per-field loop of `check_low_confidence` produces for
one raw fields entry: dict-shaped entries whose confidence (default 0) is
below 0.3 are flagged, every other entry yields nothing. -/
def fieldSigSpec (p : String × PyVal) : Option FraudSignal :=
  match p.2 with
  | PyVal.dict d =>
    if pyNumVal (dget d "confidence" (PyVal.int 0)) < mkRat 3 10 then
      some (lowFieldSig p.1 (pyNumVal (dget d "confidence" (PyVal.int 0))))
    else Option.none
  | _ => Option.none

/-- A raw fields entry whose confidence, where present on a dict-shaped
entry, is numeric (so the comparisons and `float(...)` coercions on it
cannot raise). -/
def entryConfNumeric (p : String × PyVal) : Bool :=
  match p.2 with
  | PyVal.dict d =>
    (match d.find? (fun q => q.1 == "confidence") with
     | some q => pyIsNum q.2
     | Option.none => true)
  | _ => true

/-- The extraction result of the aggregation-ordering example:
`issues=["blurry scan"]`, `fraud_analysis=(validity_score 0.3,
is_genuine_appearance false)`, no other keys. -/
def exC6 : ER :=
  [("issues", PyVal.list [PyVal.str "blurry scan"]),
   ("fraud_analysis", PyVal.dict
     [("validity_score", PyVal.float (mkRat 3 10)),
      ("is_genuine_appearance", PyVal.bool false)])]

/-- A raw fields value whose dob entry holds the date string 01-01-2100. -/
def dobOnlyFields : PyVal :=
  PyVal.dict [("dob", PyVal.dict [("value", PyVal.str "01-01-2100")])]

/-!
## Helper lemmas
-/

/-- A string with a nonempty left part is nonempty. -/
theorem strAppend_ne_empty (s t : String) (hs : s ≠ "") : s ++ t ≠ "" := by
  intro h
  apply hs
  have hd := congrArg String.data h
  rw [String.data_append] at hd
  rcases List.append_eq_nil.mp hd with ⟨h1, _⟩
  cases s with
  | mk data => cases h1; rfl

/-- On numeric values, `pyAsNum` returns the numeric value. -/
theorem pyAsNum_eq_of_isNum (v : PyVal) (h : pyIsNum v = true) :
    pyAsNum v = Except.ok (pyNumVal v) := by
  cases v <;> simp_all [pyIsNum, pyAsNum, pyNumVal]

/-- C7: for every combination of validation errors, fraud signals and
overall confidence, `is_readable = false` makes `determine_recommendation`
return REVIEW with the not-readable explanation, before any other input
is consulted. -/
theorem C7_unreadable_always_review (errs : List String) (sigs : List FraudSignal)
    (conf : PyVal) :
    determineRecommendationPy errs sigs conf (PyVal.bool false) =
      Except.ok (Recommendation.REVIEW, "Document is not readable or too low quality") := rfl

/-- C5 (counterexample): `validate` reads the wall clock through
`datetime.now()` in `validate_dob`; with identical field inputs, a call
while the clock reads 2025 and a call while it reads 2101 return
different outputs for a dob of 01-01-2100, so `validate` is not a pure
function of its inputs alone. -/
theorem C5_validate_reads_clock :
    validateFields ⟨2025, 1, 1, 0, 0, 0⟩ DocumentType.unknown dobOnlyFields ≠
      validateFields ⟨2101, 1, 1, 0, 0, 0⟩ DocumentType.unknown dobOnlyFields := by
  decide

/-- C5 (amended): `decide` and `aggregate` are deterministic pure
functions of their inputs; `validate` is deterministic only once the
clock value read by `datetime.now()` is fixed as an additional input. -/
theorem C5_determinism :
    (∀ (errs : List String) (sigs : List FraudSignal) (conf rd : PyVal),
      determineRecommendationPy errs sigs conf rd =
        determineRecommendationPy errs sigs conf rd) ∧
    (∀ e : ER, detectFraudSignals e = detectFraudSignals e) ∧
    (∀ (now : DateTime) (dt : DocumentType) (raw : PyVal),
      validateFields now dt raw = validateFields now dt raw) :=
  ⟨fun _ _ _ _ => rfl, fun _ => rfl, fun _ _ _ => rfl⟩

/-- C9: Aadhaar validation strips all whitespace from `id_number` and
errors exactly when the result is not twelve digits; in particular
"1234 5678 9012" passes, "12345" produces exactly the one error, and the
error message mentions "12 digits". -/
theorem C9_aadhaar_twelve_digits :
    (∀ s : String,
      validateAadhaar (PyVal.dict [("id_number", PyVal.dict [("value", PyVal.str s)])]) =
        Except.ok
          (if (removeWs s).length = 12 ∧ (removeWs s).data.all Char.isDigit then []
           else ["Aadhaar number must be exactly 12 digits"])) ∧
    validateAadhaar
        (PyVal.dict [("id_number", PyVal.dict [("value", PyVal.str "1234 5678 9012")])]) =
      Except.ok [] ∧
    validateAadhaar
        (PyVal.dict [("id_number", PyVal.dict [("value", PyVal.str "12345")])]) =
      Except.ok ["Aadhaar number must be exactly 12 digits"] ∧
    strContains "Aadhaar number must be exactly 12 digits" "12 digits" = true :=
  ⟨fun _ => rfl, by decide, by decide, by decide⟩

/-- C1 (counterexample): a supplied document-type hint that does not
lowercase to a member of the closed set is not mapped to `unknown`: the
`DocumentType` constructor call at pipeline.py line 84 sits outside the
try/except, so resolution raises `ValueError`. -/
theorem C1_bad_hint_raises :
    resolveDocType (some "Aadhaar Card") [] = Except.error PyErr.valueError := rfl

/-- C1 (amended): with no hint (or an empty, hence falsy, one) the
`document_type` string of the extraction result is lowercased and parsed
and every unresolvable or missing string resolves to `unknown` without an
error; a supplied truthy hint resolves only when its lowercasing is a
member of the closed set. -/
theorem C1_doc_type_resolution (e : ER) (s : String) (hint : Option String)
    (hhint : hint = Option.none ∨ hint = some "")
    (hdt : dget e "document_type" (PyVal.str "unknown") = PyVal.str s) :
    resolveDocType hint e =
      Except.ok ((parseDocumentType (lowerStr s)).getD DocumentType.unknown) ∧
    (∀ (h : String) (dt : DocumentType), parseDocumentType (lowerStr h) = some dt →
      h ≠ "" → resolveDocType (some h) e = Except.ok dt) := by
  constructor
  · have hfrom : resolveFromExtraction e =
        Except.ok ((parseDocumentType (lowerStr s)).getD DocumentType.unknown) := by
      unfold resolveFromExtraction
      rw [hdt]
      simp only [pyAsStr]
      cases hp : parseDocumentType (lowerStr s) <;> simp [hp]
    rcases hhint with h1 | h1 <;> rw [h1] <;> simp [resolveDocType, hfrom]
  · intro h dt hparse hne
    unfold resolveDocType
    simp only [if_pos hne, hparse]

/-- C1 (witness): a gibberish extraction-side type resolves to `unknown`,
and the hint "PAN" resolves to the pan document type. -/
theorem C1_doc_type_resolution_witness :
    resolveDocType Option.none [("document_type", PyVal.str "Aadhar")] =
      Except.ok DocumentType.unknown ∧
    resolveDocType (some "PAN") [] = Except.ok DocumentType.pan := by
  constructor
  · exact (C1_doc_type_resolution [("document_type", PyVal.str "Aadhar")] "Aadhar"
      Option.none (Or.inl rfl) rfl).1
  · exact (C1_doc_type_resolution [] "unknown" Option.none (Or.inl rfl) rfl).2
      "PAN" DocumentType.pan (by decide) (by decide)

/-- C3 (counterexample): with the `confidence` key absent, the fraud
check reads the default 0 (and fires the LOW_CONFIDENCE signal), but the
pipeline read that feeds the recommendation policy defaults to 0.5, not
0, so the policy does not see the value 0. -/
theorem C3_absent_confidence_cex :
    fraudOverallConfidence [] = PyVal.int 0 ∧
    pipelineOverallConfidence [] = PyVal.float (mkRat 1 2) ∧
    PyVal.float (mkRat 1 2) ≠ PyVal.int 0 ∧
    pyNumVal (pipelineOverallConfidence []) ≠ mkRat 0 1 ∧
    checkLowConfidence [] = Except.ok [lowConfSig (mkRat 0 1)] := by
  refine ⟨rfl, rfl, ?_, by decide, by decide⟩
  intro hc
  cases hc

/-- C3 (amended): when the `confidence` key is absent, the fraud
low-confidence check of the fraud aggregator reads 0 (firing its check),
while the overall confidence the pipeline passes to the recommendation
policy defaults to 0.5. -/
theorem C3_confidence_defaults (e : ER)
    (h : e.find? (fun p => p.1 == "confidence") = Option.none) :
    fraudOverallConfidence e = PyVal.int 0 ∧
    pipelineOverallConfidence e = PyVal.float (mkRat 1 2) ∧
    (∀ l, checkLowConfidence e = Except.ok l →
      ∃ rest, l = lowConfSig (mkRat 0 1) :: rest) := by
  have h1 : fraudOverallConfidence e = PyVal.int 0 := by
    unfold fraudOverallConfidence dget
    rw [h]
  have h2 : pipelineOverallConfidence e = PyVal.float (mkRat 1 2) := by
    unfold pipelineOverallConfidence dget
    rw [h]
  refine ⟨h1, h2, ?_⟩
  intro l hl
  unfold checkLowConfidence at hl
  rw [h1] at hl
  simp only [pyAsNum] at hl
  have hc : mkRat (0 : ℤ) 1 < mkRat 1 2 := by decide
  rw [if_pos hc] at hl
  split at hl
  · exact absurd hl (by simp)
  · split at hl
    · exact absurd hl (by simp)
    · injection hl with hl
      exact ⟨_, hl.symm⟩

/-- C3 (witness): the defaults observed on a concrete extraction result
lacking the `confidence` key. -/
theorem C3_confidence_defaults_witness :
    fraudOverallConfidence [("fields", PyVal.dict [])] = PyVal.int 0 ∧
    pipelineOverallConfidence [("fields", PyVal.dict [])] = PyVal.float (mkRat 1 2) ∧
    (∀ l, checkLowConfidence [("fields", PyVal.dict [])] = Except.ok l →
      ∃ rest, l = lowConfSig (mkRat 0 1) :: rest) :=
  C3_confidence_defaults [("fields", PyVal.dict [])] rfl

/-- C4: for every list of validation errors, every list of fraud signals,
every (float-typed) overall confidence and every readability flag, the
recommendation policy returns APPROVE or REVIEW — never REJECT — together
with a non-empty explanation. -/
theorem C4_policy_approve_or_review (errs : List String) (sigs : List FraudSignal)
    (q : ℚ) (b : Bool) :
    ∃ r expl,
      determineRecommendationPy errs sigs (PyVal.float q) (PyVal.bool b) =
        Except.ok (r, expl) ∧
      (r = Recommendation.APPROVE ∨ r = Recommendation.REVIEW) ∧ expl ≠ "" := by
  unfold determineRecommendationPy
  split
  · exact ⟨_, _, rfl, Or.inr rfl, by decide⟩
  · split
    · exact ⟨_, _, rfl, Or.inr rfl, strAppend_ne_empty _ _ (by decide)⟩
    · split
      · exact ⟨_, _, rfl, Or.inr rfl,
          strAppend_ne_empty _ _ (strAppend_ne_empty _ _ (by decide))⟩
      · simp only [pyAsNum]
        split
        · exact ⟨_, _, rfl, Or.inr rfl,
            strAppend_ne_empty _ _ (strAppend_ne_empty _ _ (by decide))⟩
        · split
          · split
            · exact ⟨_, _, rfl, Or.inl rfl, by decide⟩
            · exact ⟨_, _, rfl, Or.inr rfl, by decide⟩
          · split
            · exact ⟨_, _, rfl, Or.inl rfl, by decide⟩
            · exact ⟨_, _, rfl, Or.inl rfl, by decide⟩

/-- C6 (counterexample): on the example input (issues = one blurry scan,
fraud_analysis with validity 0.3 and non-genuine appearance, no
confidence key) the aggregated order is NOT the claimed three signals:
the absent overall confidence defaults to 0, so a LOW_CONFIDENCE(MEDIUM)
signal precedes them. -/
theorem C6_example_has_four_signals :
    (detectFraudSignals exC6).map (List.map (fun s => (s.type, s.severity))) =
      Except.ok [("LOW_CONFIDENCE", "MEDIUM"), ("VLM_DETECTED_ISSUE", "LOW"),
        ("LOW_VALIDITY_SCORE", "HIGH"), ("VISUAL_ANOMALY", "HIGH")] ∧
    (detectFraudSignals exC6).map (List.map (fun s => (s.type, s.severity))) ≠
      Except.ok [("VLM_DETECTED_ISSUE", "LOW"), ("LOW_VALIDITY_SCORE", "HIGH"),
        ("VISUAL_ANOMALY", "HIGH")] := by
  constructor <;> decide

/-- C6 (amended): `aggregate` returns the concatenation, in the fixed
order, of the confidence check, the script-consistency check, the
model-reported-issues check and the forensic-analysis check; on the
example input the output is LOW_CONFIDENCE(MEDIUM) —
the absent overall confidence defaults to 0 — followed by
VLM_DETECTED_ISSUE(LOW), LOW_VALIDITY_SCORE(HIGH), VISUAL_ANOMALY(HIGH). -/
theorem C6_aggregation_order :
    (∀ (e : ER) (a b c d : List FraudSignal),
      checkLowConfidence e = Except.ok a →
      checkFieldConsistency e = Except.ok b →
      checkIssuesFromVlm e = Except.ok c →
      checkLlmFraudAnalysis e = Except.ok d →
      detectFraudSignals e = Except.ok (a ++ b ++ c ++ d)) ∧
    detectFraudSignals exC6 =
      Except.ok [lowConfSig (mkRat 0 1),
        ⟨"VLM_DETECTED_ISSUE", "blurry scan", "LOW"⟩,
        ⟨"LOW_VALIDITY_SCORE",
          "AI Validity Check Failed (0.30): Low validity score detected", "HIGH"⟩,
        ⟨"VISUAL_ANOMALY",
          "Document does not appear genuine (visual check failed)", "HIGH"⟩] := by
  constructor
  · intro e a b c d h1 h2 h3 h4
    unfold detectFraudSignals
    rw [h1, h2, h3, h4]
  · decide

/-- C6 (witness): the concatenation shape evaluated on a concrete input
where only the confidence check contributes. -/
theorem C6_aggregation_order_witness :
    detectFraudSignals [("confidence", PyVal.float (mkRat 1 4))] =
      Except.ok ([lowConfSig (mkRat 1 4)] ++ [] ++ [] ++ []) :=
  C6_aggregation_order.1 _ _ _ _ _ (by decide) (by decide) (by decide) (by decide)

/-- The per-field loop of `check_low_confidence` computes exactly the
entry-wise signals of `fieldSigSpec` when every dict entry carries a
numeric confidence. -/
theorem fieldConfSignals_eq_filterMap (fs : List (String × PyVal))
    (h : fs.all entryConfNumeric = true) :
    fieldConfSignals fs = Except.ok (fs.filterMap fieldSigSpec) := by
  induction fs with
  | nil => rfl
  | cons p rest ih =>
    rcases p with ⟨k, v⟩
    rw [List.all_cons, Bool.and_eq_true] at h
    obtain ⟨hp, hrest⟩ := h
    have ihr := ih hrest
    cases v with
    | dict d =>
      have hp2 : (match d.find? (fun q => q.1 == "confidence") with
          | some q => pyIsNum q.2
          | Option.none => true) = true := hp
      have hnum : pyIsNum (dget d "confidence" (PyVal.int 0)) = true := by
        unfold dget
        cases hf : d.find? (fun q => q.1 == "confidence") with
        | none => rfl
        | some q =>
          rw [hf] at hp2
          exact hp2
      simp only [fieldConfSignals]
      rw [pyAsNum_eq_of_isNum _ hnum, ihr]
      by_cases hlt : pyNumVal (dget d "confidence" (PyVal.int 0)) < mkRat 3 10 <;>
        simp [fieldSigSpec, hlt, List.filterMap_cons]
    | none => simpa [fieldConfSignals, fieldSigSpec, List.filterMap_cons] using ihr
    | bool b => simpa [fieldConfSignals, fieldSigSpec, List.filterMap_cons] using ihr
    | int n => simpa [fieldConfSignals, fieldSigSpec, List.filterMap_cons] using ihr
    | float q => simpa [fieldConfSignals, fieldSigSpec, List.filterMap_cons] using ihr
    | str s => simpa [fieldConfSignals, fieldSigSpec, List.filterMap_cons] using ihr
    | list l => simpa [fieldConfSignals, fieldSigSpec, List.filterMap_cons] using ihr

/-- C10: the per-field confidence check of the fraud aggregator emits a LOW
LOW_FIELD_CONFIDENCE signal exactly for the dict-shaped raw fields
entries whose confidence (default 0 when absent) is below 0.3; non-dict
entries never contribute a signal, although normalization assigns them
confidence 0.5. -/
theorem C10_field_confidence_signals (e : ER) (fs : List (String × PyVal))
    (hf : dget e "fields" (PyVal.dict []) = PyVal.dict fs)
    (hov : pyIsNum (fraudOverallConfidence e) = true)
    (hfs : fs.all entryConfNumeric = true) :
    checkLowConfidence e =
      Except.ok
        ((if pyNumVal (fraudOverallConfidence e) < mkRat 1 2 then
            [lowConfSig (pyNumVal (fraudOverallConfidence e))] else []) ++
          fs.filterMap fieldSigSpec) ∧
    (∀ (k : String) (v : PyVal), (∀ d, v ≠ PyVal.dict d) →
      fieldSigSpec (k, v) = Option.none ∧
      normalizeEntry v = Except.ok ⟨pyStrOf v, mkRat 1 2⟩) := by
  constructor
  · unfold checkLowConfidence
    rw [pyAsNum_eq_of_isNum _ hov, hf]
    simp only [pyAsDict]
    rw [fieldConfSignals_eq_filterMap fs hfs]
  · intro k v hv
    constructor
    · cases v <;> first | rfl | exact absurd rfl (hv _)
    · cases v <;> first | rfl | exact absurd rfl (hv _)

/-- C10 (witness): on a concrete fields mapping, entry a (confidence 0.1)
and entry c (confidence absent, default 0) are flagged while the bare
scalar entry b is not. -/
theorem C10_field_confidence_signals_witness :
    checkLowConfidence [("confidence", PyVal.int 1),
      ("fields", PyVal.dict
        [("a", PyVal.dict [("confidence", PyVal.float (mkRat 1 10))]),
         ("b", PyVal.str "bare"), ("c", PyVal.dict [])])] =
      Except.ok [lowFieldSig "a" (mkRat 1 10), lowFieldSig "c" (mkRat 0 1)] :=
  ((C10_field_confidence_signals
      [("confidence", PyVal.int 1),
       ("fields", PyVal.dict
         [("a", PyVal.dict [("confidence", PyVal.float (mkRat 1 10))]),
          ("b", PyVal.str "bare"), ("c", PyVal.dict [])])]
      [("a", PyVal.dict [("confidence", PyVal.float (mkRat 1 10))]),
       ("b", PyVal.str "bare"), ("c", PyVal.dict [])]
      rfl rfl (by decide)).1).trans (by decide)

/-- C8: DOB validation accepts an empty value; otherwise it performs one
parse attempt over the ordered format list (first success wins, as
`parseDate` tries the formats in their listed order) and produces at most
one of the three mutually exclusive errors, evaluated in the order
unparseable, in-the-future, before-1900. -/
theorem C8_dob_validation (now : DateTime) (raw : PyVal) (s : String)
    (hget : getFieldValue raw "dob" = Except.ok (PyVal.str s)) :
    (s = "" → validateDob now raw = Except.ok []) ∧
    (∀ l, validateDob now raw = Except.ok l → l.length ≤ 1) ∧
    (s ≠ "" → parseDate s = Option.none →
      validateDob now raw = Except.ok ["Could not parse date of birth: " ++ s]) ∧
    (∀ d, parseDate s = some d → dtLtB now d = true →
      validateDob now raw = Except.ok ["Date of birth cannot be in the future"]) ∧
    (∀ d, parseDate s = some d → dtLtB now d = false → d.year < 1900 →
      validateDob now raw = Except.ok ["Date of birth year seems too old"]) ∧
    (∀ d, parseDate s = some d → dtLtB now d = false → ¬ d.year < 1900 →
      validateDob now raw = Except.ok []) := by
  have hempty : parseDate "" = Option.none := by decide
  have hbase : validateDob now raw =
      (if s.isEmpty then Except.ok [] else
        match parseDate s with
        | Option.none => Except.ok ["Could not parse date of birth: " ++ s]
        | some d =>
          if dtLtB now d then Except.ok ["Date of birth cannot be in the future"]
          else if d.year < 1900 then Except.ok ["Date of birth year seems too old"]
          else Except.ok []) := by
    unfold validateDob
    rw [hget]
    simp only [pyTruthy, pyAsStr]
    cases hse : s.isEmpty <;> simp [hse]
  refine ⟨?_, ?_, ?_, ?_, ?_, ?_⟩
  · intro hs
    subst hs
    exact hbase.trans rfl
  · intro l hl
    rw [hbase] at hl
    split at hl
    · cases hl; simp
    · split at hl
      · cases hl; simp
      · split at hl
        · cases hl; simp
        · split at hl
          · cases hl; simp
          · cases hl; simp
  · intro hs hp
    have hse : s.isEmpty = false := by
      cases h : s.isEmpty
      · rfl
      · exact absurd ((String.isEmpty_iff s).mp h) hs
    rw [hbase, hse, hp]
    simp
  · intro d hp hfut
    have hs : s ≠ "" := by
      intro h0
      rw [h0, hempty] at hp
      cases hp
    have hse : s.isEmpty = false := by
      cases h : s.isEmpty
      · rfl
      · exact absurd ((String.isEmpty_iff s).mp h) hs
    rw [hbase, hse, hp]
    simp [hfut]
  · intro d hp hfut hold
    have hs : s ≠ "" := by
      intro h0
      rw [h0, hempty] at hp
      cases hp
    have hse : s.isEmpty = false := by
      cases h : s.isEmpty
      · rfl
      · exact absurd ((String.isEmpty_iff s).mp h) hs
    rw [hbase, hse, hp]
    simp [hfut, hold]
  · intro d hp hfut hold
    have hs : s ≠ "" := by
      intro h0
      rw [h0, hempty] at hp
      cases hp
    have hse : s.isEmpty = false := by
      cases h : s.isEmpty
      · rfl
      · exact absurd ((String.isEmpty_iff s).mp h) hs
    rw [hbase, hse, hp]
    simp [hfut, hold]

/-- C8 (witness): a well-formed 31-12-1899 date is parsed by the first
format and flagged only as too old under a 2025 clock. -/
theorem C8_dob_validation_witness :
    validateDob ⟨2025, 10, 12, 0, 0, 0⟩
        (PyVal.dict [("dob", PyVal.dict [("value", PyVal.str "31-12-1899")])]) =
      Except.ok ["Date of birth year seems too old"] :=
  (C8_dob_validation ⟨2025, 10, 12, 0, 0, 0⟩
      (PyVal.dict [("dob", PyVal.dict [("value", PyVal.str "31-12-1899")])])
      "31-12-1899" rfl).2.2.2.2.1
    ⟨1899, 12, 31, 0, 0, 0⟩ (by decide) (by decide) (by decide)

